import Mathlib

/-!
Verification of `ZhiCounterTimerController.py` (sardana counter/timer controller
for a Zurich Instruments boxcar averager).

The Python module is embedded shallowly:

* floating-point sample values are modelled as `Option ℚ`, with `none` standing
  for NaN and `some q` for a non-NaN value;
* hardware timestamps are modelled as `ℤ`;
* calls into the vendor client library (`ziDAQServer`) are modelled as an
  explicit trace of `Effect`s, with the device-dependent answers
  (`features/devtype`, `features/options`, `clockbase`, the connection API
  level, the data returned by `poll`, the wall-clock times) supplied as inputs;
* Python exceptions are modelled with `Except PyError` (for the constructor)
  and with `Option` (for `readData`/`ReadOne`, whose only failure modes are
  indexing/lookup errors).

Division by zero in `ℚ` yields `0` where NumPy would yield NaN/inf; no theorem
below depends on the value produced in those degenerate cases.
-/

namespace Zhi

/-- Substring search on character lists: does `needle` occur (contiguously) in
the remaining text. -/
def containsSubAux (needle : List Char) : List Char → Bool
  | [] => needle.isEmpty
  | c :: rest => needle.isPrefixOf (c :: rest) || containsSubAux needle rest

/-- Model of Python `re.search(pat, s)` for a literal (regex-free) pattern such
as `'BOX'`: true exactly when `pat` occurs as a substring of `s`. -/
def containsSub (pat s : String) : Bool :=
  containsSubAux pat.toList s.toList

/-- Python errors raised by the embedded code: `Exception(msg)` and the
`TypeError` produced by evaluating `str * str`. -/
inductive PyError where
  | exception (msg : String)
  | typeError (msg : String)
deriving DecidableEq

/-- Python evaluates `a * b` on two `str` operands to a `TypeError` (sequences
can only be multiplied by an `int`).  This models the expression
`"ziDAQServer is using API Level 1, ..." * "to use API Level 6 ..."` on
lines 45-46 of the source, whose intent was evidently concatenation. -/
def strMulStr (a b : String) : Except PyError String :=
  Except.error (PyError.typeError "can only multiply sequence by int, not str")

/-- Answers of the data server that the constructor reads from the device:
`features/devtype`, `features/options`, `clockbase` and the negotiated
connection API level (`getConnectionAPILevel`). -/
structure DeviceEnv where
  devtype : String
  options : String
  clock : ℚ
  apiLevel : ℤ
deriving DecidableEq

/-- Calls issued to the vendor client library, in program order. -/
inductive Effect where
  | serverConnect (ip : String) (port apiLevel : ℤ)
  | connectDevice (device iface : String)
  | connect
  | loadSettings (file : String)
  | getByte (nodePath : String)
  | getDouble (nodePath : String)
  | warn (msg : String)
  | sync
  | subscribe (nodePath : String)
  | flush
  | poll (length : ℚ) (timeoutMs flags : ℤ) (flatDict : Bool)
deriving DecidableEq

/-- The two sample streams returned by `poll`: timestamps and values of boxcar
channel 0 (`boxcar1_*` in the source) and channel 1 (`boxcar2_*`). -/
structure PollData where
  ts1 : List ℤ
  v1 : List (Option ℚ)
  ts2 : List ℤ
  v2 : List (Option ℚ)
deriving DecidableEq

/-- The tuple returned by `boxcars.readData`.  `semSq1`/`semSq2` hold the
square of `scipy.stats.sem` (standard error of the mean with `ddof = 1`); the
source's value is the (nonnegative) square root of this field, kept squared
here so the whole development stays inside `ℚ`. -/
structure ReadResult where
  mean1 : ℚ
  mean2 : ℚ
  semSq1 : ℚ
  semSq2 : ℚ
  count1 : ℕ
  freq : ℚ
  duration : ℚ
  rel : ℚ
  diffAbs : ℚ
deriving DecidableEq

/-- The attributes of a `boxcars` instance after `__init__`. -/
structure BoxState where
  device : String
  iface : String
  timeOut : ℤ
  devtype : String
  options : String
  clock : ℚ
  isAcquiring : Bool
  data : Option PollData
  acqStart : Option ℚ
  acqEnd : Option ℚ
deriving DecidableEq

/-- `'/%s/features/devtype' % device` (source line 37). -/
def devtypePath (device : String) : String := "/" ++ device ++ "/features/devtype"

/-- `'/%s/features/options' % device` (source line 38). -/
def optionsPath (device : String) : String := "/" ++ device ++ "/features/options"

/-- `'/%s/clockbase' % device` (source line 39). -/
def clockbasePath (device : String) : String := "/" ++ device ++ "/clockbase"

/-- `'/%s/boxcars/%d/sample' % (device, n)` (source lines 50-51). -/
def boxcarPath (device : String) (n : ℕ) : String :=
  "/" ++ device ++ "/boxcars/" ++ toString n ++ "/sample"

/-- `boxcars.__init__` (source lines 14-51): connect to the data server and
device, load settings, read the device features, raise unless the options
string contains `BOX`, check the connection API level (the mismatch branch is
modelled faithfully, including the `str * str` expression), then sync and
subscribe to the two boxcar sample paths.  Returns the constructed state and
the trace of client-library calls, or the raised error. -/
def boxcarsInit (ip : String) (port apiLevelArg : ℤ) (device iface settings : String)
    (repRate timeOutArg : ℤ) (env : DeviceEnv) : Except PyError (BoxState × List Effect) :=
  let tr0 : List Effect :=
    [Effect.serverConnect ip port apiLevelArg,
     Effect.connectDevice device iface,
     Effect.connect,
     Effect.loadSettings settings,
     Effect.getByte (devtypePath device),
     Effect.getByte (optionsPath device),
     Effect.getDouble (clockbasePath device)]
  let base : BoxState :=
    { device := device, iface := iface, timeOut := timeOutArg,
      devtype := env.devtype, options := env.options, clock := env.clock,
      isAcquiring := false, data := none, acqStart := none, acqEnd := none }
  if containsSub "BOX" env.options = false then
    Except.error (PyError.exception
      "This example can only be ran on a UHF with the BOX option enabled.")
  else if env.apiLevel ≠ 6 then
    match strMulStr "ziDAQServer is using API Level 1, it is strongly recommended "
        "to use API Level 6 in order to obtain boxcar data with timestamps." with
    | Except.error e => Except.error e
    | Except.ok msg =>
        Except.ok (base,
          tr0 ++ [Effect.warn msg, Effect.sync,
                  Effect.subscribe (boxcarPath device 0),
                  Effect.subscribe (boxcarPath device 1)])
  else
    Except.ok (base,
      tr0 ++ [Effect.sync,
              Effect.subscribe (boxcarPath device 0),
              Effect.subscribe (boxcarPath device 1)])

/-- `boxcars.pollData` (source lines 60-70): flush, then a blocking poll with
`poll_length = intTime`, `poll_timeout = 500` ms, `poll_flags = 0x0004`,
`poll_return_flat_dict = False`; store the result, clear `isAcquiring`, record
the end time.  The poll result and the wall-clock time are inputs. -/
def pollData (st : BoxState) (intTime : ℚ) (pollResult : PollData) (now : ℚ) :
    BoxState × List Effect :=
  let pollLength : ℚ := intTime
  let pollTimeout : ℤ := 500
  let pollFlags : ℤ := 4
  let pollFlat : Bool := false
  ({ st with data := some pollResult, isAcquiring := false, acqEnd := some now },
   [Effect.flush, Effect.poll pollLength pollTimeout pollFlags pollFlat])

/-- `boxcars.startAcq` (source lines 53-58): set `isAcquiring`, record the
start time, reset `data`, then call `pollData` synchronously. -/
def startAcq (st : BoxState) (intTime : ℚ) (pollResult : PollData) (t0 t1 : ℚ) :
    BoxState × List Effect :=
  let st1 : BoxState := { st with isAcquiring := true, acqStart := some t0, data := none }
  pollData st1 intTime pollResult t1

/-- NumPy boolean-mask selection `xs[mask]` (both arrays have equal length in
every use below). -/
def maskSel {α : Type} : List Bool → List α → List α
  | true :: ms, x :: xs => x :: maskSel ms xs
  | false :: ms, _ :: xs => maskSel ms xs
  | _, _ => []

/-- The elementwise selection mask of source lines 83-84:
`(ts >= maxStartTime) & (ts <= minFinishTime) & ~np.isnan(values)`. -/
def maskOf (a b : ℤ) (ts : List ℤ) (vs : List (Option ℚ)) : List Bool :=
  List.zipWith (fun t v => decide (a ≤ t) && decide (t ≤ b) && v.isSome) ts vs

/-- `np.mean` over a rational list (`0` on the empty list, where NumPy yields
NaN; never relied upon). -/
def mean (xs : List ℚ) : ℚ := xs.sum / (xs.length : ℚ)

/-- The square of `scipy.stats.sem xs` (standard error of the mean with
`ddof = 1`): `Σ (x - mean)² / (n - 1) / n`. -/
def semSq (xs : List ℚ) : ℚ :=
  ((xs.map (fun x => (x - mean xs) ^ 2)).sum / ((xs.length : ℚ) - 1)) / (xs.length : ℚ)

/-- `np.diff`: successive differences. -/
def listDiffs (xs : List ℤ) : List ℤ := List.zipWith (fun u v => u - v) xs.tail xs

/-- `boxcars.readData` (source lines 72-94) on the polled channel data, given
the device `clock` and the wall-clock `duration = acqEndTime - acqStartTime`.
Returns `none` when either timestamp array is empty (the source would raise an
`IndexError` at `timestamp[0]`). -/
def readDataCore (clock duration : ℚ) (d : PollData) : Option ReadResult :=
  if d.ts1 = [] ∨ d.ts2 = [] then none
  else
    let maxStartTime := max d.ts1.headI d.ts2.headI
    let minFinishTime := min (d.ts1.getLastD 0) (d.ts2.getLastD 0)
    let select1 := maskOf maxStartTime minFinishTime d.ts1 d.v1
    let select2 := maskOf maxStartTime minFinishTime d.ts2 d.v2
    let vals1 := (maskSel select1 d.v1).map (fun v => v.getD 0)
    let vals2 := (maskSel select2 d.v2).map (fun v => v.getD 0)
    let freq := 1 / (mean ((listDiffs (maskSel select1 d.ts1)).map (fun z => (z : ℚ))) / clock)
    let mean1 := mean vals1
    let mean2 := mean vals2
    some { mean1 := mean1, mean2 := mean2,
           semSq1 := semSq vals1, semSq2 := semSq vals2,
           count1 := vals1.length, freq := freq, duration := duration,
           rel := mean1 / mean2, diffAbs := |mean1 - mean2| }

/-- `boxcars.readData` as a method: it reads `self.data`, `self.clock`,
`self.acqEndTime - self.acqStartTime`.  `none` models the errors raised when
no poll has happened yet (`self.data` is unset/empty, the acquisition times
are `None`). -/
def boxcarsReadData (st : BoxState) : Option ReadResult :=
  match st.data, st.acqEnd, st.acqStart with
  | some d, some te, some ts0 => readDataCore st.clock (te - ts0) d
  | _, _, _ => none

/-- The state of a `ZhiCounterTimerController` instance: the wrapped `boxcars`
object, the cached `self.data` tuple (flattened to a list of rationals), and
the write-only `self.isAquiring` attribute set on line 135 (note the source's
spelling; it is distinct from `boxcars.isAcquiring` and never read). -/
structure CtrlState where
  zhi : BoxState
  data : List ℚ
  isAquiring : Bool
deriving DecidableEq

/-- The 9-tuple returned by `readData`, in source order, as a list of
rationals (the integer count cast to `ℚ`). -/
def resultToList (r : ReadResult) : List ℚ :=
  [r.mean1, r.mean2, r.semSq1, r.semSq2, (r.count1 : ℚ), r.freq, r.duration, r.rel, r.diffAbs]

/-- `ZhiCounterTimerController.__init__` (source lines 125-135): construct the
`boxcars` object from the controller properties, then set `self.data = []`
and `self.isAquiring = False`. -/
def ctrlInit (ip : String) (port apiLevelArg : ℤ) (device iface settings : String)
    (repRate timeOutArg : ℤ) (env : DeviceEnv) : Except PyError (CtrlState × List Effect) :=
  match boxcarsInit ip port apiLevelArg device iface settings repRate timeOutArg env with
  | Except.error e => Except.error e
  | Except.ok (b, tr) => Except.ok ({ zhi := b, data := [], isAquiring := false }, tr)

/-- The reported sardana states used by `StateOne`. -/
inductive SardanaState where
  | On
  | Moving
deriving DecidableEq

/-- `ZhiCounterTimerController.StateOne` (source lines 144-150). -/
def StateOne (st : CtrlState) (axis : ℕ) : SardanaState × String :=
  if st.zhi.isAcquiring then (SardanaState.Moving, "Counter is acquiring")
  else (SardanaState.On, "Counter is stopped")

/-- `ZhiCounterTimerController.StartOne` (source lines 152-155): on axis 0,
call `self.zhi.startAcq(value)` (the poll result and the two wall-clock times
are inputs of the model); on any other axis do nothing. -/
def StartOne (st : CtrlState) (axis : ℕ) (value : ℚ) (pr : PollData) (t0 t1 : ℚ) : CtrlState :=
  if axis = 0 then { st with zhi := (startAcq st.zhi value pr t0 t1).1 } else st

/-- `ZhiCounterTimerController.ReadOne` (source lines 137-142): on axis 0
refresh `self.data` from `self.zhi.readData()`, then return `self.data[axis]`.
`none` models the `IndexError`/lookup errors of the source. -/
def ReadOne (st : CtrlState) (axis : ℕ) : Option (ℚ × CtrlState) :=
  let refreshed : Option CtrlState :=
    if axis = 0 then
      (boxcarsReadData st.zhi).map (fun r => { st with data := resultToList r })
    else some st
  refreshed.bind (fun st1 => (st1.data.get? axis).map (fun x => (x, st1)))

/-- A full happy-path run: construct the `boxcars` object, then run one
acquisition (`startAcq`), concatenating the call traces. -/
def session (ip : String) (port apiLevelArg : ℤ) (device iface settings : String)
    (repRate timeOutArg : ℤ) (env : DeviceEnv) (intTime : ℚ) (pr : PollData) (t0 t1 : ℚ) :
    Except PyError (BoxState × List Effect) :=
  match boxcarsInit ip port apiLevelArg device iface settings repRate timeOutArg env with
  | Except.error e => Except.error e
  | Except.ok (st0, tr0) =>
      let r := startAcq st0 intTime pr t0 t1
      Except.ok (r.1, tr0 ++ r.2)

/-- The trace of client-library calls of a constructor/session outcome
(empty when it raised). -/
def tracePart : Except PyError (BoxState × List Effect) → List Effect
  | Except.ok (_, tr) => tr
  | Except.error _ => []

/-- The final state of a constructor/session outcome. -/
def statePart : Except PyError (BoxState × List Effect) → Option BoxState
  | Except.ok (st, _) => some st
  | Except.error _ => none

/-- The paths of the `subscribe` calls of a trace, in order. -/
def subscribedPaths (tr : List Effect) : List String :=
  tr.filterMap (fun e => match e with | Effect.subscribe p => some p | _ => none)

/-- The samples of one channel (timestamp-value pairs) whose timestamps lie in
the common time window `[a, b]` and whose value is not NaN — the
specification-level description of the selection of source lines 83-84. -/
def specSelected (a b : ℤ) (ts : List ℤ) (vs : List (Option ℚ)) : List (ℤ × Option ℚ) :=
  (ts.zip vs).filter (fun s => decide (a ≤ s.1) && decide (s.1 ≤ b) && s.2.isSome)

/-- The values of the selected samples. -/
def specVals (a b : ℤ) (ts : List ℤ) (vs : List (Option ℚ)) : List ℚ :=
  (specSelected a b ts vs).map (fun s => s.2.getD 0)

/-- The timestamps of the selected samples. -/
def specTs (a b : ℤ) (ts : List ℤ) (vs : List (Option ℚ)) : List ℤ :=
  (specSelected a b ts vs).map Prod.fst

/-- The lower end of the common time window: the larger of the two first
timestamps. -/
def winLo (d : PollData) : ℤ := max d.ts1.headI d.ts2.headI

/-- The upper end of the common time window: the smaller of the two last
timestamps. -/
def winHi (d : PollData) : ℤ := min (d.ts1.getLastD 0) (d.ts2.getLastD 0)

/-- Boolean-mask selection of the value array agrees with filtering the
zipped (timestamp, value) pairs and projecting to values. -/
theorem maskSel_maskOf_snd (a b : ℤ) (ts : List ℤ) :
    ∀ vs : List (Option ℚ),
      maskSel (maskOf a b ts vs) vs = (specSelected a b ts vs).map Prod.snd := by
  induction ts with
  | nil => intro vs; rfl
  | cons t ts ih =>
    intro vs
    cases vs with
    | nil => rfl
    | cons v vs =>
      simp only [maskOf, List.zipWith_cons_cons, specSelected, List.zip_cons_cons,
        List.filter_cons]
      cases hc : decide (a ≤ t) && decide (t ≤ b) && v.isSome with
      | false =>
        simp only [maskSel, Bool.false_eq_true, if_false]
        exact ih vs
      | true =>
        simp only [maskSel, if_true, List.map_cons]
        exact congrArg (List.cons v) (ih vs)

/-- Boolean-mask selection of the timestamp array agrees with filtering the
zipped (timestamp, value) pairs and projecting to timestamps. -/
theorem maskSel_maskOf_fst (a b : ℤ) (ts : List ℤ) :
    ∀ vs : List (Option ℚ),
      maskSel (maskOf a b ts vs) ts = (specSelected a b ts vs).map Prod.fst := by
  induction ts with
  | nil => intro vs; rfl
  | cons t ts ih =>
    intro vs
    cases vs with
    | nil => rfl
    | cons v vs =>
      simp only [maskOf, List.zipWith_cons_cons, specSelected, List.zip_cons_cons,
        List.filter_cons]
      cases hc : decide (a ≤ t) && decide (t ≤ b) && v.isSome with
      | false =>
        simp only [maskSel, Bool.false_eq_true, if_false]
        exact ih vs
      | true =>
        simp only [maskSel, if_true, List.map_cons]
        exact congrArg (List.cons t) (ih vs)

/-- The selected value list of the source equals the specification-level
`specVals`. -/
theorem specVals_eq (a b : ℤ) (ts : List ℤ) (vs : List (Option ℚ)) :
    (maskSel (maskOf a b ts vs) vs).map (fun v => v.getD 0) = specVals a b ts vs := by
  rw [maskSel_maskOf_snd, specVals, List.map_map]
  rfl

/-- The selected timestamp list of the source equals the specification-level
`specTs`. -/
theorem specTs_eq (a b : ℤ) (ts : List ℤ) (vs : List (Option ℚ)) :
    maskSel (maskOf a b ts vs) ts = specTs a b ts vs := by
  rw [maskSel_maskOf_fst, specTs]

/-- Every selected sample has its timestamp in the common window. -/
theorem specSelected_window (a b : ℤ) (ts : List ℤ) (vs : List (Option ℚ)) :
    ∀ p ∈ specSelected a b ts vs, a ≤ p.1 ∧ p.1 ≤ b := by
  intro p hp
  simp only [specSelected, List.mem_filter, Bool.and_eq_true, decide_eq_true_eq] at hp
  exact ⟨hp.2.1.1, hp.2.1.2⟩

/-- C1: whenever both boxcar channels return non-empty sample arrays,
`readData` returns the per-channel means, the (squared) standard errors of the
mean, the relative difference `mean1/mean2`, the absolute difference
`|mean1 - mean2|` and a sampling frequency, each computed over exactly the
samples selected inside the common time window
`[max(first timestamps), min(last timestamps)]` (and non-NaN); the final two
conjuncts state that every selected sample's timestamp lies in that window. -/
theorem readData_window_stats (clock dur : ℚ) (d : PollData)
    (h1 : d.ts1 ≠ []) (h2 : d.ts2 ≠ []) :
    readDataCore clock dur d = some
      { mean1 := mean (specVals (winLo d) (winHi d) d.ts1 d.v1),
        mean2 := mean (specVals (winLo d) (winHi d) d.ts2 d.v2),
        semSq1 := semSq (specVals (winLo d) (winHi d) d.ts1 d.v1),
        semSq2 := semSq (specVals (winLo d) (winHi d) d.ts2 d.v2),
        count1 := (specVals (winLo d) (winHi d) d.ts1 d.v1).length,
        freq := 1 / (mean ((listDiffs (specTs (winLo d) (winHi d) d.ts1 d.v1)).map
          (fun z => (z : ℚ))) / clock),
        duration := dur,
        rel := mean (specVals (winLo d) (winHi d) d.ts1 d.v1) /
          mean (specVals (winLo d) (winHi d) d.ts2 d.v2),
        diffAbs := |mean (specVals (winLo d) (winHi d) d.ts1 d.v1) -
          mean (specVals (winLo d) (winHi d) d.ts2 d.v2)| } ∧
    (∀ p ∈ specSelected (winLo d) (winHi d) d.ts1 d.v1, winLo d ≤ p.1 ∧ p.1 ≤ winHi d) ∧
    (∀ p ∈ specSelected (winLo d) (winHi d) d.ts2 d.v2, winLo d ≤ p.1 ∧ p.1 ≤ winHi d) := by
  refine ⟨?_, specSelected_window _ _ _ _, specSelected_window _ _ _ _⟩
  unfold readDataCore
  rw [if_neg (by simp [h1, h2])]
  simp only [winLo, winHi, specVals_eq, specTs_eq]

/-- C1 witness: the theorem applied to a concrete poll result. -/
theorem readData_window_stats_witness :
    (([0, 2] : List ℤ) ≠ [] ∧ ([1, 2] : List ℤ) ≠ []) ∧
    readDataCore 1 7 ⟨[0, 2], [some 1, some 3], [1, 2], [none, some 5]⟩ =
      some { mean1 := 3, mean2 := 5, semSq1 := 0, semSq2 := 0, count1 := 1,
             freq := 0, duration := 7, rel := 3 / 5, diffAbs := 2 } := by
  refine ⟨⟨by decide, by decide⟩, ?_⟩
  have h := (readData_window_stats 1 7 ⟨[0, 2], [some 1, some 3], [1, 2], [none, some 5]⟩
    (by decide) (by decide)).1
  rw [h]
  norm_num [winLo, winHi, specVals, specTs, specSelected, mean, semSq, listDiffs]

/-- C2: the selection masks built on source lines 83-84 (and used by
`readData` through `maskSel`) exclude every sample whose value is NaN: for all
window bounds and input arrays, every value that survives the mask is non-NaN
(`isSome` in the model), so the means and standard errors are computed only
over non-NaN values inside the window. -/
theorem maskOf_excludes_nan :
    ∀ (a b : ℤ) (ts : List ℤ) (vs : List (Option ℚ)),
      (maskSel (maskOf a b ts vs) vs).all Option.isSome = true := by
  intro a b ts vs
  rw [maskSel_maskOf_snd, List.all_eq_true]
  intro v hv
  simp only [List.mem_map] at hv
  obtain ⟨p, hp, rfl⟩ := hv
  simp only [specSelected, List.mem_filter, Bool.and_eq_true] at hp
  exact hp.2.2

/-- C5: `pollData` always issues exactly a `flush` followed by one blocking
`poll` whose length is the integration time and whose timeout is the constant
500 ms with flags `0x0004` and a non-flat dictionary; the second conjunct
makes explicit that the trace — in particular the 500 ms timeout — does not
depend on the state's configured `timeOut` property. -/
theorem pollData_fixed_timeout (st : BoxState) (intTime : ℚ) (pr : PollData)
    (now : ℚ) (otherTimeOut : ℤ) :
    (pollData st intTime pr now).2 = [Effect.flush, Effect.poll intTime 500 4 false] ∧
    (pollData { st with timeOut := otherTimeOut } intTime pr now).2 =
      (pollData st intTime pr now).2 := by
  exact ⟨rfl, rfl⟩

/-- C3: on the API-level-mismatch branch the source does not issue a warning —
the argument of `warnings.warn` is the expression `"..." * "..."`, which
multiplies two strings and raises a `TypeError`, so the constructor aborts
with an exception (and an empty effective call trace) instead of warning once
and continuing.  Evaluated at a device with the BOX option and connection API
level 1. -/
theorem init_api_mismatch_raises :
    boxcarsInit "127.0.0.1" 8004 6 "dev2192" "1GbE" "PumpUnpumpBoxCar.xml" 1500 30
        ⟨"UHFLI", "UHF-BOX", 1800000000, 1⟩ =
      Except.error (PyError.typeError "can only multiply sequence by int, not str") ∧
    tracePart (boxcarsInit "127.0.0.1" 8004 6 "dev2192" "1GbE" "PumpUnpumpBoxCar.xml" 1500 30
        ⟨"UHFLI", "UHF-BOX", 1800000000, 1⟩) = [] := by
  exact ⟨rfl, rfl⟩

/-- C4: the constructor does raise when the options string lacks `BOX`
(third conjunct), but it is not true that an exception is raised only in that
case: with `BOX` present and a connection API level of 1 the constructor still
raises (the `TypeError` of the string-multiplication slip on lines 45-46),
so construction does not always proceed to subscription when `BOX` is
present. -/
theorem init_box_check_not_iff :
    containsSub "BOX" "UHF-BOX" = true ∧
    boxcarsInit "127.0.0.1" 8004 6 "dev2192" "1GbE" "s.xml" 1500 30
        ⟨"UHFLI", "UHF-BOX", 1800000000, 1⟩ =
      Except.error (PyError.typeError "can only multiply sequence by int, not str") ∧
    boxcarsInit "127.0.0.1" 8004 6 "dev2192" "1GbE" "s.xml" 1500 30
        ⟨"UHFLI", "UHF-512MHZ", 1800000000, 6⟩ =
      Except.error (PyError.exception
        "This example can only be ran on a UHF with the BOX option enabled.") := by
  exact ⟨rfl, rfl, rfl⟩

/-- C6: when the device reports the BOX option and the connection API level is
6, the constructor succeeds and its trace contains exactly two `subscribe`
calls, to the boxcar 0 and boxcar 1 sample paths of the configured device, in
that order, and to no other path. -/
theorem init_subscribes_two (ip : String) (port api : ℤ) (dev ifc stg : String)
    (rep tmo : ℤ) (env : DeviceEnv)
    (hbox : containsSub "BOX" env.options = true) (hapi : env.apiLevel = 6) :
    (∃ st tr, boxcarsInit ip port api dev ifc stg rep tmo env = Except.ok (st, tr)) ∧
    subscribedPaths (tracePart (boxcarsInit ip port api dev ifc stg rep tmo env)) =
      [boxcarPath dev 0, boxcarPath dev 1] := by
  constructor
  · refine ⟨BoxState.mk dev ifc tmo env.devtype env.options env.clock false none none none,
      [Effect.serverConnect ip port api, Effect.connectDevice dev ifc, Effect.connect,
       Effect.loadSettings stg, Effect.getByte (devtypePath dev),
       Effect.getByte (optionsPath dev), Effect.getDouble (clockbasePath dev),
       Effect.sync, Effect.subscribe (boxcarPath dev 0), Effect.subscribe (boxcarPath dev 1)],
      ?_⟩
    simp [boxcarsInit, hbox, hapi]
  · simp [boxcarsInit, hbox, hapi, tracePart, subscribedPaths]

/-- C6 witness: the theorem applied to a concrete device environment. -/
theorem init_subscribes_two_witness :
    (containsSub "BOX" (DeviceEnv.mk "UHFLI" "UHF-BOX-512" 1800000000 6).options = true ∧
     (DeviceEnv.mk "UHFLI" "UHF-BOX-512" 1800000000 6).apiLevel = 6) ∧
    (∃ st tr, boxcarsInit "127.0.0.1" 8004 6 "dev2192" "1GbE" "s.xml" 1500 30
        (DeviceEnv.mk "UHFLI" "UHF-BOX-512" 1800000000 6) = Except.ok (st, tr)) ∧
    subscribedPaths (tracePart (boxcarsInit "127.0.0.1" 8004 6 "dev2192" "1GbE" "s.xml" 1500 30
        (DeviceEnv.mk "UHFLI" "UHF-BOX-512" 1800000000 6))) =
      [boxcarPath "dev2192" 0, boxcarPath "dev2192" 1] := by
  exact ⟨⟨rfl, rfl⟩, init_subscribes_two "127.0.0.1" 8004 6 "dev2192" "1GbE" "s.xml" 1500 30
    (DeviceEnv.mk "UHFLI" "UHF-BOX-512" 1800000000 6) rfl rfl⟩

/-- C7: `StateOne` reports `(Moving, "Counter is acquiring")` exactly when the
`isAcquiring` flag of the wrapped `boxcars` object is true and
`(On, "Counter is stopped")` exactly when it is false; and any two controller
states agreeing on that single flag — whatever their axis argument, cached
data, or the write-only `isAquiring` attribute of line 135 — produce the same
report, so no other state variable is consulted. -/
theorem StateOne_only_flag (st st2 : CtrlState) (ax ax2 : ℕ)
    (h : st2.zhi.isAcquiring = st.zhi.isAcquiring) :
    StateOne st ax = (if st.zhi.isAcquiring then (SardanaState.Moving, "Counter is acquiring")
      else (SardanaState.On, "Counter is stopped")) ∧
    StateOne st2 ax2 = StateOne st ax := by
  exact ⟨rfl, by simp [StateOne, h]⟩

/-- C7 witness: two concrete states sharing only the flag. -/
theorem StateOne_only_flag_witness :
    (CtrlState.mk (BoxState.mk "a" "b" 1 "c" "d" 2 false none none none) [] true).zhi.isAcquiring =
      (CtrlState.mk (BoxState.mk "e" "f" 3 "g" "h" 4 false none none none) [5] false).zhi.isAcquiring ∧
    StateOne (CtrlState.mk (BoxState.mk "e" "f" 3 "g" "h" 4 false none none none) [5] false) 0 =
      (if (CtrlState.mk (BoxState.mk "e" "f" 3 "g" "h" 4 false none none none) [5] false).zhi.isAcquiring
       then (SardanaState.Moving, "Counter is acquiring")
       else (SardanaState.On, "Counter is stopped")) ∧
    StateOne (CtrlState.mk (BoxState.mk "a" "b" 1 "c" "d" 2 false none none none) [] true) 7 =
      StateOne (CtrlState.mk (BoxState.mk "e" "f" 3 "g" "h" 4 false none none none) [5] false) 0 := by
  exact ⟨rfl,
    (StateOne_only_flag
      (CtrlState.mk (BoxState.mk "e" "f" 3 "g" "h" 4 false none none none) [5] false)
      (CtrlState.mk (BoxState.mk "a" "b" 1 "c" "d" 2 false none none none) [] true) 0 7 rfl).1,
    (StateOne_only_flag
      (CtrlState.mk (BoxState.mk "e" "f" 3 "g" "h" 4 false none none none) [5] false)
      (CtrlState.mk (BoxState.mk "a" "b" 1 "c" "d" 2 false none none none) [] true) 0 7 rfl).2⟩

/-- C8: on the happy path (BOX option present, API level 6) the whole call
trace is, in order: server connect, device connect, `connect`, settings load,
the three feature reads, `sync`, the two `subscribe`s, then — only inside the
acquisition — `flush` and the single blocking `poll`.  In particular no `poll`
precedes the two subscriptions.  Moreover the final state's `data` is exactly
the poll result, and `readData` run on that state reduces precisely that
polled data (with the device clock and the recorded acquisition times). -/
theorem session_order (ip : String) (port api : ℤ) (dev ifc stg : String)
    (rep tmo : ℤ) (env : DeviceEnv) (intTime : ℚ) (pr : PollData) (t0 t1 : ℚ)
    (hbox : containsSub "BOX" env.options = true) (hapi : env.apiLevel = 6) :
    tracePart (session ip port api dev ifc stg rep tmo env intTime pr t0 t1) =
      [Effect.serverConnect ip port api, Effect.connectDevice dev ifc, Effect.connect,
       Effect.loadSettings stg, Effect.getByte (devtypePath dev),
       Effect.getByte (optionsPath dev), Effect.getDouble (clockbasePath dev),
       Effect.sync, Effect.subscribe (boxcarPath dev 0), Effect.subscribe (boxcarPath dev 1),
       Effect.flush, Effect.poll intTime 500 4 false] ∧
    (statePart (session ip port api dev ifc stg rep tmo env intTime pr t0 t1)).bind
      BoxState.data = some pr ∧
    (statePart (session ip port api dev ifc stg rep tmo env intTime pr t0 t1)).map
      boxcarsReadData = some (readDataCore env.clock (t1 - t0) pr) := by
  refine ⟨?_, ?_, ?_⟩ <;>
    simp [session, boxcarsInit, hbox, hapi, startAcq, pollData, tracePart, statePart,
      boxcarsReadData]

/-- C8 witness: the theorem applied to a concrete environment and poll
result. -/
theorem session_order_witness :
    (containsSub "BOX" (DeviceEnv.mk "UHFLI" "UHF-BOX" 3 6).options = true ∧
     (DeviceEnv.mk "UHFLI" "UHF-BOX" 3 6).apiLevel = 6) ∧
    tracePart (session "127.0.0.1" 8004 6 "dev2192" "1GbE" "s.xml" 1500 30
        (DeviceEnv.mk "UHFLI" "UHF-BOX" 3 6) 2 (PollData.mk [] [] [] []) 0 9) =
      [Effect.serverConnect "127.0.0.1" 8004 6, Effect.connectDevice "dev2192" "1GbE",
       Effect.connect, Effect.loadSettings "s.xml", Effect.getByte (devtypePath "dev2192"),
       Effect.getByte (optionsPath "dev2192"), Effect.getDouble (clockbasePath "dev2192"),
       Effect.sync, Effect.subscribe (boxcarPath "dev2192" 0),
       Effect.subscribe (boxcarPath "dev2192" 1),
       Effect.flush, Effect.poll 2 500 4 false] ∧
    (statePart (session "127.0.0.1" 8004 6 "dev2192" "1GbE" "s.xml" 1500 30
        (DeviceEnv.mk "UHFLI" "UHF-BOX" 3 6) 2 (PollData.mk [] [] [] []) 0 9)).bind
      BoxState.data = some (PollData.mk [] [] [] []) ∧
    (statePart (session "127.0.0.1" 8004 6 "dev2192" "1GbE" "s.xml" 1500 30
        (DeviceEnv.mk "UHFLI" "UHF-BOX" 3 6) 2 (PollData.mk [] [] [] []) 0 9)).map
      boxcarsReadData =
      some (readDataCore (DeviceEnv.mk "UHFLI" "UHF-BOX" 3 6).clock ((9 : ℚ) - 0)
        (PollData.mk [] [] [] [])) := by
  have h := session_order "127.0.0.1" 8004 6 "dev2192" "1GbE" "s.xml" 1500 30
    (DeviceEnv.mk "UHFLI" "UHF-BOX" 3 6) 2 (PollData.mk [] [] [] []) 0 9 rfl rfl
  exact ⟨⟨rfl, rfl⟩, h.1, h.2.1, h.2.2⟩

/-- C9: `pollData` runs synchronously inside `startAcq` and clears
`isAcquiring` before returning, so the flag is false whenever `startAcq` has
returned (first conjunct, for every starting state); consequently `StateOne`
invoked after `StartOne` on axis 0 — or on any axis, from any state whose flag
is down, since a non-zero axis leaves the state untouched — reports
`State.On`, never `State.Moving`. -/
theorem startAcq_leaves_stopped (st : CtrlState) (v : ℚ) (pr : PollData) (t0 t1 : ℚ)
    (ax axq : ℕ) (hflag : st.zhi.isAcquiring = false) :
    ((startAcq st.zhi v pr t0 t1).1).isAcquiring = false ∧
    StateOne (StartOne st 0 v pr t0 t1) axq = (SardanaState.On, "Counter is stopped") ∧
    StateOne (StartOne st ax v pr t0 t1) axq = (SardanaState.On, "Counter is stopped") := by
  refine ⟨rfl, by simp [StartOne, StateOne, startAcq, pollData], ?_⟩
  by_cases hax : ax = 0
  · subst hax
    simp [StartOne, StateOne, startAcq, pollData]
  · simp [StartOne, hax, StateOne, hflag]

/-- C9 witness: the theorem applied to a concrete idle controller state. -/
theorem startAcq_leaves_stopped_witness :
    (CtrlState.mk (BoxState.mk "a" "b" 1 "c" "d" 2 false none none none) [] false).zhi.isAcquiring
      = false ∧
    ((startAcq (CtrlState.mk (BoxState.mk "a" "b" 1 "c" "d" 2 false none none none)
        [] false).zhi 1 (PollData.mk [] [] [] []) 0 1).1).isAcquiring = false ∧
    StateOne (StartOne (CtrlState.mk (BoxState.mk "a" "b" 1 "c" "d" 2 false none none none)
        [] false) 0 1 (PollData.mk [] [] [] []) 0 1) 3 =
      (SardanaState.On, "Counter is stopped") ∧
    StateOne (StartOne (CtrlState.mk (BoxState.mk "a" "b" 1 "c" "d" 2 false none none none)
        [] false) 2 1 (PollData.mk [] [] [] []) 0 1) 3 =
      (SardanaState.On, "Counter is stopped") := by
  have h := startAcq_leaves_stopped
    (CtrlState.mk (BoxState.mk "a" "b" 1 "c" "d" 2 false none none none) [] false)
    1 (PollData.mk [] [] [] []) 0 1 2 3 rfl
  exact ⟨rfl, h.1, h.2.1, h.2.2⟩

/-- C10: `ReadOne` refreshes the cached tuple from `readData` only on axis 0:
for `n ≠ 0` it returns the `n`-th element of the previously cached list with
the state unchanged (first conjunct; the model shows no device interaction
occurs — `ReadOne` issues no effects at all); a freshly constructed controller
has the empty cache, on which `ReadOne n` fails with an index error (second
and third conjuncts); and on axis 0 the cache is replaced by the fresh
`readData` result before indexing (fourth conjunct). -/
theorem ReadOne_cache_behavior (st : CtrlState) (n : ℕ) (r : ReadResult)
    (ip : String) (port api : ℤ) (dev ifc stg : String) (rep tmo : ℤ)
    (env : DeviceEnv) (st0 : CtrlState) (tr : List Effect)
    (hn : n ≠ 0)
    (hinit : ctrlInit ip port api dev ifc stg rep tmo env = Except.ok (st0, tr))
    (hr : boxcarsReadData st.zhi = some r) :
    ReadOne st n = (st.data.get? n).map (fun x => (x, st)) ∧
    st0.data = [] ∧
    ReadOne st0 n = none ∧
    ReadOne st 0 = ((resultToList r).get? 0).map
      (fun x => (x, { st with data := resultToList r })) := by
  have hd0 : st0.data = [] := by
    unfold ctrlInit at hinit
    cases hb : boxcarsInit ip port api dev ifc stg rep tmo env with
    | error e => rw [hb] at hinit; simp at hinit
    | ok p =>
      obtain ⟨b, tr2⟩ := p
      rw [hb] at hinit
      simp only [Except.ok.injEq, Prod.mk.injEq] at hinit
      rw [← hinit.1]
  refine ⟨by simp [ReadOne, hn], hd0, ?_, by simp [ReadOne, hr]⟩
  simp [ReadOne, hn, hd0]

/-- C10 witness: the theorem applied to a concrete controller with a cached
tuple, a concrete fresh construction, and a concrete poll result. -/
theorem ReadOne_cache_behavior_witness :
    (1 : ℕ) ≠ 0 ∧
    ctrlInit "127.0.0.1" 8004 6 "dev2192" "1GbE" "s.xml" 1500 30
        (DeviceEnv.mk "UHFLI" "UHF-BOX" 3 6) =
      Except.ok (CtrlState.mk (BoxState.mk "dev2192" "1GbE" 30 "UHFLI" "UHF-BOX" 3
          false none none none) [] false,
        [Effect.serverConnect "127.0.0.1" 8004 6, Effect.connectDevice "dev2192" "1GbE",
         Effect.connect, Effect.loadSettings "s.xml", Effect.getByte (devtypePath "dev2192"),
         Effect.getByte (optionsPath "dev2192"), Effect.getDouble (clockbasePath "dev2192"),
         Effect.sync, Effect.subscribe (boxcarPath "dev2192" 0),
         Effect.subscribe (boxcarPath "dev2192" 1)]) ∧
    boxcarsReadData (CtrlState.mk (BoxState.mk "dev2192" "1GbE" 30 "UHFLI" "UHF-BOX" 1
        false (some (PollData.mk [0, 2] [some 1, some 3] [1, 2] [none, some 5]))
        (some 0) (some 7)) [10, 20] false).zhi =
      some (ReadResult.mk 3 5 0 0 1 0 7 (3 / 5) 2) ∧
    (ReadOne (CtrlState.mk (BoxState.mk "dev2192" "1GbE" 30 "UHFLI" "UHF-BOX" 1
        false (some (PollData.mk [0, 2] [some 1, some 3] [1, 2] [none, some 5]))
        (some 0) (some 7)) [10, 20] false) 1 =
      ((CtrlState.mk (BoxState.mk "dev2192" "1GbE" 30 "UHFLI" "UHF-BOX" 1
        false (some (PollData.mk [0, 2] [some 1, some 3] [1, 2] [none, some 5]))
        (some 0) (some 7)) [10, 20] false).data.get? 1).map
        (fun x => (x, CtrlState.mk (BoxState.mk "dev2192" "1GbE" 30 "UHFLI" "UHF-BOX" 1
          false (some (PollData.mk [0, 2] [some 1, some 3] [1, 2] [none, some 5]))
          (some 0) (some 7)) [10, 20] false)) ∧
     (CtrlState.mk (BoxState.mk "dev2192" "1GbE" 30 "UHFLI" "UHF-BOX" 3
        false none none none) [] false).data = [] ∧
     ReadOne (CtrlState.mk (BoxState.mk "dev2192" "1GbE" 30 "UHFLI" "UHF-BOX" 3
        false none none none) [] false) 1 = none ∧
     ReadOne (CtrlState.mk (BoxState.mk "dev2192" "1GbE" 30 "UHFLI" "UHF-BOX" 1
        false (some (PollData.mk [0, 2] [some 1, some 3] [1, 2] [none, some 5]))
        (some 0) (some 7)) [10, 20] false) 0 =
      ((resultToList (ReadResult.mk 3 5 0 0 1 0 7 (3 / 5) 2)).get? 0).map
        (fun x => (x, CtrlState.mk (BoxState.mk "dev2192" "1GbE" 30 "UHFLI" "UHF-BOX" 1
          false (some (PollData.mk [0, 2] [some 1, some 3] [1, 2] [none, some 5]))
          (some 0) (some 7))
          (resultToList (ReadResult.mk 3 5 0 0 1 0 7 (3 / 5) 2)) false))) := by
  have hr : boxcarsReadData (CtrlState.mk (BoxState.mk "dev2192" "1GbE" 30 "UHFLI" "UHF-BOX" 1
      false (some (PollData.mk [0, 2] [some 1, some 3] [1, 2] [none, some 5]))
      (some 0) (some 7)) [10, 20] false).zhi =
      some (ReadResult.mk 3 5 0 0 1 0 7 (3 / 5) 2) := by
    simp only [boxcarsReadData]
    unfold readDataCore
    rw [if_neg (by simp)]
    norm_num [maskOf, maskSel, mean, semSq, listDiffs]
  refine ⟨by decide, rfl, hr, ?_⟩
  exact ReadOne_cache_behavior _ 1 _ "127.0.0.1" 8004 6 "dev2192" "1GbE" "s.xml" 1500 30
    (DeviceEnv.mk "UHFLI" "UHF-BOX" 3 6) _ _ (by decide) rfl hr

end Zhi
